import Mathlib

/-!
Verification of the RAD-synthesizer field-analysis scripts.

The repository is a set of Python (and one JavaScript) scripts that scan
rule-function text embedded in markdown, extract field-path strings with
regular expressions, normalize them through static tables, and render
aggregate reports.  This file gives a shallow embedding of the pure parts
of those scripts over `PyStr := List Char` (Python `str` values are finite
character sequences; regular-expression matching is embedded as explicit
left-to-right scanners with the same matching semantics as the concrete
patterns used in the source).  ASCII is assumed for character classes
(`\w`, `\s`, `str.lower`), which covers every string the scripts handle.

File I/O (reading the markdown corpus, writing reports) is abstracted:
each embedded function takes the already-read text or already-parsed
report structure as its argument, exactly as the Python function body does
after its `open(...).read()` / `json.load` line.
-/

/-- Python strings are modelled as lists of characters. -/
abbrev PyStr := List Char

/-- Embed a Lean string literal as a `PyStr`. -/
def mkStr (s : String) : PyStr := s.data

/-- Single-quote character (codepoint 39). -/
def quoteS : Char := Char.ofNat 39

/-- Double-quote character (codepoint 34). -/
def quoteD : Char := Char.ofNat 34

/-- Backtick character (codepoint 96). -/
def quoteB : Char := Char.ofNat 96

/-- Opening curly brace (codepoint 123). -/
def braceL : Char := Char.ofNat 123

/-- Closing curly brace (codepoint 125). -/
def braceR : Char := Char.ofNat 125

/-- Whitespace as recognised by Python `str.strip()` and by the regex
class `\s` (ASCII subset): space, tab, newline, carriage return,
vertical tab, form feed. -/
def isPySpace (c : Char) : Bool :=
  c = ' ' || c = '\t' || c = '\n' || c = '\x0d' || c = '\x0b' || c = '\x0c'

/-- Word characters of the regex class `\w` (ASCII subset). -/
def isWordChar (c : Char) : Bool :=
  (('a' ≤ c && c ≤ 'z') || ('A' ≤ c && c ≤ 'Z') || ('0' ≤ c && c ≤ '9') || c = '_')

/-- Quote characters of the regex class used by the scripts: single
quote, double quote, backtick. -/
def isQuoteChar (c : Char) : Bool :=
  c = quoteS || c = quoteD || c = quoteB

/-- Python `s.strip()`: remove leading and trailing whitespace. -/
def pyStrip (s : PyStr) : PyStr :=
  ((s.dropWhile isPySpace).reverse.dropWhile isPySpace).reverse

/-- Python `s.strip(chars)`: remove leading and trailing characters
drawn from `cs`. -/
def pyStripChars (cs : List Char) (s : PyStr) : PyStr :=
  ((s.dropWhile (fun c => c ∈ cs)).reverse.dropWhile (fun c => c ∈ cs)).reverse

/-- Python `s.lower()` (ASCII). -/
def lowerStr (s : PyStr) : PyStr := s.map Char.toLower

/-- First index of `pat` in `s` at or after the running index `i`;
models Python `str.find` (which returns the smallest match index). -/
def findSubGo (pat : PyStr) : PyStr → Nat → Option Nat
  | [], i => if pat.isPrefixOf ([] : PyStr) then some i else none
  | c :: rest, i =>
    if pat.isPrefixOf (c :: rest) then some i else findSubGo pat rest (i + 1)

/-- Python `s.find(pat)` as an `Option` (Python returns -1 on failure). -/
def findSub (pat s : PyStr) : Option Nat := findSubGo pat s 0

/-- Python `s.find(pat, start)`. -/
def findSubFrom (pat s : PyStr) (start : Nat) : Option Nat :=
  (findSub pat (s.drop start)).map (· + start)

/-- Python substring containment `pat in s`. -/
def containsSub (pat s : PyStr) : Bool := (findSub pat s).isSome

/-- Python `s.split(sep)` worker for a non-empty separator, fuelled by
the length of the remaining string (each step consumes at least one
character, so fuel `s.length + 1` is never exhausted). -/
def splitOnGo (sep : PyStr) : Nat → PyStr → PyStr → List PyStr
  | _, [], acc => [acc.reverse]
  | 0, s, acc => [acc.reverse ++ s]
  | fuel + 1, c :: rest, acc =>
    if sep.isPrefixOf (c :: rest) then
      acc.reverse :: splitOnGo sep fuel (rest.drop (sep.length - 1)) []
    else
      splitOnGo sep fuel rest (c :: acc)

/-- Python `s.split(sep)` for a non-empty separator: non-overlapping,
left to right, keeping empty pieces. -/
def splitOnSub (sep s : PyStr) : List PyStr :=
  match sep with
  | [] => [s]
  | _ :: _ => splitOnGo sep (s.length + 1) s []

/-- Decimal rendering worker, fuelled (fuel `n + 1` suffices since the
argument is divided by ten each step). -/
def natToStrGo : Nat → Nat → PyStr
  | 0, _ => []
  | fuel + 1, n =>
    if n < 10 then [Nat.digitChar n]
    else natToStrGo fuel (n / 10) ++ [Nat.digitChar (n % 10)]

/-- Decimal rendering of a natural number, as Python `str(n)` for
non-negative `n`. -/
def natToStr (n : Nat) : PyStr := natToStrGo (n + 1) n

/-- Python string comparison: lexicographic on code points. -/
def strLt : PyStr → PyStr → Bool
  | [], [] => false
  | [], _ :: _ => true
  | _ :: _, [] => false
  | a :: as, b :: bs =>
    if a.toNat < b.toNat then true
    else if b.toNat < a.toNat then false
    else strLt as bs

/-- Stable ascending insertion for string sort (equal keys keep their
original relative order, as Python `sorted`). -/
def insertAscStr (x : PyStr) : List PyStr → List PyStr
  | [] => [x]
  | y :: ys => if strLt x y then x :: y :: ys else y :: insertAscStr x ys

/-- Python `sorted(list_of_strings)`. -/
def sortStrs (l : List PyStr) : List PyStr :=
  l.foldl (fun acc x => insertAscStr x acc) []

/-- Stable descending insertion by a numeric key: the new element goes
after all existing elements with a key at least as large, which yields
the same order as Python `sorted(..., reverse=True)` (stable). -/
def insertDescBy (key : α → Nat) (x : α) : List α → List α
  | [] => [x]
  | y :: ys => if key y < key x then x :: y :: ys else y :: insertDescBy key x ys

/-- Python `sorted(l, key=key, reverse=True)`. -/
def sortDescBy (key : α → Nat) (l : List α) : List α :=
  l.foldl (fun acc x => insertDescBy key x acc) []

/-- Counter increment: models `collections.Counter` updates, which keep
keys in first-insertion order. -/
def cntIncr : List (PyStr × Nat) → PyStr → List (PyStr × Nat)
  | [], k => [(k, 1)]
  | (k', v) :: rest, k =>
    if k' = k then (k', v + 1) :: rest else (k', v) :: cntIncr rest k

/-- Python `Counter.most_common(n)`: stable descending sort by count,
then take the first `n`. -/
def mostCommon (n : Nat) (c : List (PyStr × Nat)) : List (PyStr × Nat) :=
  (sortDescBy (fun kv => kv.2) c).take n

/-- Set insertion preserving first-insertion order (models the
deterministic part of Python `set.add`; set iteration order is modelled
as insertion order). -/
def setAdd (l : List PyStr) (x : PyStr) : List PyStr :=
  if x ∈ l then l else l ++ [x]

/-- Join a list of strings with a separator, as Python `sep.join`. -/
def joinSep (sep : PyStr) : List PyStr → PyStr
  | [] => []
  | [x] => x
  | x :: y :: rest => x ++ sep ++ joinSep sep (y :: rest)

/-- Pad on the left with spaces to width `n` (Python `f"{s:>n}"` /
numeric width). -/
def padLeftStr (n : Nat) (s : PyStr) : PyStr :=
  List.replicate (n - s.length) ' ' ++ s

/-- Pad on the right with spaces to width `n` (Python `f"{s:<n}"`). -/
def padRightStr (n : Nat) (s : PyStr) : PyStr :=
  s ++ List.replicate (n - s.length) ' '

/-!
## `analyze_rad_fields.py`: `RADFieldAnalyzer.normalize_field_path`
-/

/-- Static table of the `normalizations` dict in
`RADFieldAnalyzer.normalize_field_path` (insertion order preserved). -/
def normalizations : List (PyStr × PyStr) :=
  [ (mkStr "entitlementData.current", mkStr "entitlements.current"),
    (mkStr "entitlementData.used", mkStr "entitlements.used"),
    (mkStr "entitlementData.transitionable", mkStr "entitlements.transitionable"),
    (mkStr "vnextAccount.billing", mkStr "billing"),
    (mkStr "vnextAccount.account", mkStr "account"),
    (mkStr "features.websiteType", mkStr "websiteType"),
    (mkStr "gem.subscriberCount", mkStr "email.subscriberCount"),
    (mkStr "gem.hasSent", mkStr "email.hasSent"),
    (mkStr "gem.lastFbPostDate", mkStr "social.lastFacebookPost"),
    (mkStr "gem.lastIgPostDate", mkStr "social.lastInstagramPost"),
    (mkStr "ols.products.count", mkStr "commerce.productCount"),
    (mkStr "ola.service.total", mkStr "appointments.serviceCount"),
    (mkStr "ola.account.status", mkStr "appointments.status") ]

/-- Initial cleanup shared by both normalizers:
`field.strip().strip('"\x27\x60')` (whitespace, then quote characters). -/
def cleanField (f : PyStr) : PyStr :=
  pyStripChars [quoteD, quoteS, quoteB] (pyStrip f)

/-- Prefix-table scan of `normalize_field_path`: the first `(old, new)`
pair whose key is a prefix of the field replaces that occurrence once
(`field.replace(old, new, 1)`; the startswith guard puts the first
occurrence at index 0, so this is `new ++ drop old.length field`). -/
def applyNormalizations : List (PyStr × PyStr) → PyStr → PyStr
  | [], field => field
  | (old, new) :: rest, field =>
    if old.isPrefixOf field then new ++ field.drop old.length
    else applyNormalizations rest field

/-- Embedding of `RADFieldAnalyzer.normalize_field_path` (return value;
the `field_variations` bookkeeping side effect does not affect it). -/
def normalize_field_path (field : PyStr) : PyStr :=
  applyNormalizations normalizations (cleanField field)

/-!
## `analyze_unique_data_fields.py`: `UniqueDataAnalyzer.normalize_field_deeply`
-/

/-- Static table of the `deep_mappings` dict in
`UniqueDataAnalyzer.normalize_field_deeply` (insertion order). -/
def deep_mappings : List (PyStr × PyStr) :=
  [ (mkStr "accountId", mkStr "account.id"),
    (mkStr "wsbvnext.accountId", mkStr "account.id"),
    (mkStr "mktgasst.accountId", mkStr "account.id"),
    (mkStr "vnextAccount.shopperId", mkStr "account.shopperId"),
    (mkStr "id", mkStr "entity.id"),
    (mkStr "wsbvnext.id", mkStr "entity.id"),
    (mkStr "mktgasst.id", mkStr "entity.id"),
    (mkStr "type", mkStr "entity.type"),
    (mkStr "wsbvnext.type", mkStr "entity.type"),
    (mkStr "mktgasst.type", mkStr "entity.type"),
    (mkStr "vnextAccount.billing.commitment", mkStr "billing.commitment"),
    (mkStr "vnextAccount.billing.termType", mkStr "billing.termType"),
    (mkStr "vnextAccount.billing.autoRenew", mkStr "billing.autoRenew"),
    (mkStr "vnextAccount.account.paymentStatus", mkStr "billing.paymentStatus"),
    (mkStr "account.paymentStatus", mkStr "billing.paymentStatus"),
    (mkStr "features.websiteType", mkStr "website.type"),
    (mkStr "features.published", mkStr "website.isPublished"),
    (mkStr "features.widgets", mkStr "website.widgets"),
    (mkStr "features.planType", mkStr "account.planType"),
    (mkStr "features.userAddedLogo", mkStr "website.hasCustomLogo"),
    (mkStr "features.externalDomainName", mkStr "website.customDomain"),
    (mkStr "entitlementData", mkStr "entitlements.all"),
    (mkStr "entitlementData.current", mkStr "entitlements.current"),
    (mkStr "entitlementData.current.commerce", mkStr "entitlements.commerce"),
    (mkStr "entitlementData.current.blog", mkStr "entitlements.blog"),
    (mkStr "entitlementData.current.appointments", mkStr "entitlements.appointments"),
    (mkStr "entitlementData.current.conversations", mkStr "entitlements.conversations"),
    (mkStr "entitlementData.current[\"conversations.lite\"]", mkStr "entitlements.conversationsLite"),
    (mkStr "entitlementData.transitionable", mkStr "entitlements.available"),
    (mkStr "entitlementData.used", mkStr "entitlements.used"),
    (mkStr "gem.subscriberCount", mkStr "email.subscriberCount"),
    (mkStr "gem.hasSent", mkStr "email.hasSentCampaign"),
    (mkStr "gem.lastFbPostDate", mkStr "social.lastFacebookPost"),
    (mkStr "gem.lastIgPostDate", mkStr "social.lastInstagramPost"),
    (mkStr "features.facebook.pageId", mkStr "social.facebookPageId"),
    (mkStr "features.facebook.isConnected", mkStr "social.facebookConnected"),
    (mkStr "features.instagram.isConnected", mkStr "social.instagramConnected"),
    (mkStr "features.gmb.hasGMBPublished", mkStr "social.googleBusinessPublished"),
    (mkStr "features.gmb.hasGMBStarted", mkStr "social.googleBusinessStarted"),
    (mkStr "features.gmb.hasGMBLocation", mkStr "social.googleBusinessLocation"),
    (mkStr "features.yelp.hasYelpPublished", mkStr "social.yelpPublished"),
    (mkStr "features.yelp.hasCompletedYelpFlow", mkStr "social.yelpCompleted"),
    (mkStr "ols.products.count", mkStr "commerce.productCount"),
    (mkStr "ols.setup_status", mkStr "commerce.setupStatus"),
    (mkStr "ols.store_status", mkStr "commerce.storeStatus"),
    (mkStr "ols.marketplace_data", mkStr "commerce.marketplaces"),
    (mkStr "ols.featured_products_with_images", mkStr "commerce.featuredProducts"),
    (mkStr "ols.payment_methods.available", mkStr "commerce.paymentMethods"),
    (mkStr "ols.features_enabled.product_reviews", mkStr "commerce.productReviewsEnabled"),
    (mkStr "ols.features_enabled.abandoned_cart", mkStr "commerce.abandonedCartEnabled"),
    (mkStr "ola.service.total", mkStr "appointments.serviceCount"),
    (mkStr "ola.account.status", mkStr "appointments.accountStatus"),
    (mkStr "ola.online_payment.status", mkStr "appointments.paymentStatus"),
    (mkStr "ola.calendar_sync.status", mkStr "appointments.calendarSyncStatus"),
    (mkStr "ola.facebook_booking.status", mkStr "appointments.facebookBookingStatus"),
    (mkStr "ola.notifications.c1_sms", mkStr "appointments.smsNotifications"),
    (mkStr "ola.account.has_business_address", mkStr "appointments.hasBusinessAddress"),
    (mkStr "customerIntentions", mkStr "customer.intentions"),
    (mkStr "wsbvnext.customerIntentions", mkStr "customer.intentions"),
    (mkStr "blog", mkStr "content.blogPosts"),
    (mkStr "contacts", mkStr "customer.contacts"),
    (mkStr "domainName", mkStr "website.domainName"),
    (mkStr "links.addSubscribers", mkStr "links.emailSubscribers"),
    (mkStr "links.composeCampaign", mkStr "links.emailCampaign"),
    (mkStr "links.blog", mkStr "links.blog"),
    (mkStr "links.editorDirect", mkStr "links.websiteEditor"),
    (mkStr "links.preview", mkStr "links.websitePreview"),
    (mkStr "request.query.ventureId", mkStr "context.ventureId"),
    (mkStr "request.query.appLocation", mkStr "context.appLocation"),
    (mkStr "vnextAccount.ventureId", mkStr "context.ventureId") ]

/-- Exact-match scan of the deep mapping loop
(`for original, normalized in deep_mappings.items(): if field == original:
return normalized`). -/
def applyDeepMapping : List (PyStr × PyStr) → PyStr → Option PyStr
  | [], _ => none
  | (original, normalized) :: rest, field =>
    if field = original then some normalized else applyDeepMapping rest field

/-- Embedding of `UniqueDataAnalyzer.normalize_field_deeply`. -/
def normalize_field_deeply (f : PyStr) : PyStr :=
  let field := cleanField f
  match applyDeepMapping deep_mappings field with
  | some v => v
  | none =>
    if (mkStr "features.").isPrefixOf field then mkStr "website." ++ field.drop 9
    else if (mkStr "vnextAccount.").isPrefixOf field then field.drop 13
    else if (mkStr "wsbvnext.").isPrefixOf field then field.drop 9
    else if (mkStr "mktgasst.").isPrefixOf field then field.drop 9
    else field

/-!
## Claim C2: normalization is idempotent on the static table keys
-/

set_option maxRecDepth 100000 in
/-- C2: for every raw field string that is a key of the static mapping
table, normalization is idempotent — normalizing the result a second
time returns it unchanged — both for
`RADFieldAnalyzer.normalize_field_path` (startswith-based table) and for
`UniqueDataAnalyzer.normalize_field_deeply` (exact-match table plus
prefix strips). -/
theorem normalization_idempotent_on_table_keys :
    (∀ p ∈ normalizations,
      normalize_field_path (normalize_field_path p.1) = normalize_field_path p.1) ∧
    (∀ p ∈ deep_mappings,
      normalize_field_deeply (normalize_field_deeply p.1) = normalize_field_deeply p.1) := by
  constructor
  · decide
  · decide

/-- Closed witness for C2 at the concrete table keys
`entitlementData.current` (startswith table) and `accountId` (deep
table). -/
theorem normalization_idempotent_witness :
    normalize_field_path (normalize_field_path (mkStr "entitlementData.current"))
        = normalize_field_path (mkStr "entitlementData.current") ∧
    normalize_field_deeply (normalize_field_deeply (mkStr "accountId"))
        = normalize_field_deeply (mkStr "accountId") :=
  ⟨normalization_idempotent_on_table_keys.1
      (mkStr "entitlementData.current", mkStr "entitlements.current") (by decide),
   normalization_idempotent_on_table_keys.2
      (mkStr "accountId", mkStr "account.id") (by decide)⟩

/-!
## Claim C6: the shape of `normalize_field_deeply`
-/

/-- Counterexample for C6 as stated: the claim says a field starting
with the `features.` prefix has that prefix removed, but the code
replaces `features.` by `website.`: `features.zzz` normalizes to
`website.zzz`, not to `zzz`. -/
theorem normalize_deeply_features_not_stripped :
    normalize_field_deeply (mkStr "features.zzz") ≠ mkStr "zzz" ∧
    normalize_field_deeply (mkStr "features.zzz") = mkStr "website.zzz" := by
  constructor
  · decide
  · decide

/-- Specification-side restatement of the amended C6 (named after the
spec wording): exact-table lookup first; else `features.` is replaced by
`website.`; else the `vnextAccount.` / `wsbvnext.` / `mktgasst.`
prefixes are stripped; else the field passes through unchanged. -/
def normalizeDeeplySpec (f : PyStr) : PyStr :=
  match List.lookup f deep_mappings with
  | some v => v
  | none =>
    if (mkStr "features.").isPrefixOf f then mkStr "website." ++ f.drop 9
    else if (mkStr "vnextAccount.").isPrefixOf f then f.drop 13
    else if (mkStr "wsbvnext.").isPrefixOf f then f.drop 9
    else if (mkStr "mktgasst.").isPrefixOf f then f.drop 9
    else f

/-- Lookup in the mapping loop agrees with association-list lookup. -/
theorem applyDeepMapping_eq_lookup (l : List (PyStr × PyStr)) (f : PyStr) :
    applyDeepMapping l f = List.lookup f l := by
  induction l with
  | nil => rfl
  | cons p rest ih =>
    cases p with
    | mk k v =>
      by_cases h : f = k
      · simp [applyDeepMapping, List.lookup, h]
      · have hb : (f == k) = false := beq_eq_false_iff_ne.mpr h
        simp [applyDeepMapping, List.lookup, h, ih, hb]

/-- C6 (amended): for every raw path string unchanged by the initial
whitespace/quote cleanup, `normalize_field_deeply` returns the table
value on an exact key, else replaces a `features.` prefix with
`website.`, else strips a `vnextAccount.` / `wsbvnext.` / `mktgasst.`
prefix, else returns the input unchanged; no unseen prefix is flagged or
rejected (the function is total and never errors). -/
theorem normalize_deeply_behaviour (f : PyStr) (hclean : cleanField f = f) :
    normalize_field_deeply f = normalizeDeeplySpec f := by
  unfold normalize_field_deeply normalizeDeeplySpec
  rw [hclean]
  simp only [applyDeepMapping_eq_lookup]

/-- Closed witness for C6 at the concrete cleaned-up input
`features.zzz`. -/
theorem normalize_deeply_behaviour_witness :
    cleanField (mkStr "features.zzz") = mkStr "features.zzz" ∧
    normalize_field_deeply (mkStr "features.zzz") = normalizeDeeplySpec (mkStr "features.zzz") :=
  ⟨by decide, normalize_deeply_behaviour (mkStr "features.zzz") (by decide)⟩

/-!
## `analyze_rad_fields.py`: `RADFieldAnalyzer.parse_rad_file`

The Python function reads the file and then operates on the full text;
the embedding takes that text as its argument.
-/

/-- Name of a section: the Python body computes
`lines = section.strip().split('\n')` and takes `lines[0].strip()`
(`split` always returns at least one piece, so the `if lines:` guard is
always true). -/
def sectionName (sec : PyStr) : PyStr :=
  pyStrip (((splitOnSub (mkStr "\n") (pyStrip sec)).headD []) )

/-- Code block of a section: `code_start = section.find('```javascript')`,
`code_end = section.find('```', code_start + 1)`; when both are found the
code is `section[code_start + 13:code_end].strip()`. -/
def sectionCode (sec : PyStr) : Option PyStr :=
  match findSub (mkStr "```javascript") sec with
  | none => none
  | some cs =>
    match findSubFrom (mkStr "```") sec (cs + 1) with
    | none => none
    | some ce => some (pyStrip ((sec.drop (cs + 13)).take (ce - (cs + 13))))

/-- One loop iteration of `parse_rad_file`: a `(name, code)` pair when
the section has a fenced javascript block, nothing otherwise. -/
def parseSection (sec : PyStr) : Option (PyStr × PyStr) :=
  (sectionCode sec).map (fun code => (sectionName sec, code))

/-- Embedding of `RADFieldAnalyzer.parse_rad_file` on the file content:
`sections = content.split('## ')`, then every section after the first
contributes a pair when it carries a closed javascript fence. -/
def parse_rad_content (content : PyStr) : List (PyStr × PyStr) :=
  ((splitOnSub (mkStr "## ") content).tail).filterMap parseSection

/-- When every element of a list of sections carries a closed fence, the
filterMap over `parseSection` is a total map. -/
theorem filterMap_parseSection_eq_map (l : List PyStr)
    (h : ∀ s ∈ l, (sectionCode s).isSome = true) :
    l.filterMap parseSection
      = l.map (fun s => (sectionName s, (sectionCode s).getD [])) := by
  induction l with
  | nil => rfl
  | cons x xs ih =>
    have hx : (sectionCode x).isSome = true := h x (by simp)
    obtain ⟨c, hc⟩ := Option.isSome_iff_exists.mp hx
    simp only [List.filterMap_cons, List.map_cons, parseSection, hc, Option.map_some]
    rw [ih (fun s hs => h s (by simp [hs]))]
    simp [hc]

/-- C3: a markdown document with exactly `N` occurrences of the marker
`## ` (so `content.split('## ')` has `N + 1` pieces, the count of
non-overlapping occurrences), each followed by a ```javascript fence
closed by ```, parses to exactly `N` `(name, code)` pairs, one per
header, with the name taken from the header line. -/
theorem parse_rad_sections_count (content : PyStr) (N : Nat)
    (hN : (splitOnSub (mkStr "## ") content).length = N + 1)
    (hfence : ∀ s ∈ (splitOnSub (mkStr "## ") content).tail,
      (sectionCode s).isSome = true) :
    (parse_rad_content content).length = N ∧
    (parse_rad_content content).map Prod.fst
      = ((splitOnSub (mkStr "## ") content).tail).map sectionName := by
  unfold parse_rad_content
  rw [filterMap_parseSection_eq_map _ hfence]
  constructor
  · simp [List.length_tail, hN]
  · simp [List.map_map]
    rfl

/-- Sample two-section markdown document for the C3 witness. -/
def sampleDoc : PyStr :=
  mkStr "Intro\n## Alpha\n```javascript\ncode1\n```\n## Beta\n```javascript\ncode2\n```\n"

/-- Closed witness for C3 on a concrete document with two `## ` headers,
each with a closed javascript fence. -/
theorem parse_rad_sections_count_witness :
    (splitOnSub (mkStr "## ") sampleDoc).length = 2 + 1 ∧
    (parse_rad_content sampleDoc).length = 2 :=
  ⟨by decide, (parse_rad_sections_count sampleDoc 2 (by decide) (by decide)).1⟩

/-!
## `analyze_rad_fields.py`: regex extraction helpers

Each `re.finditer` / `re.search` call is embedded as an explicit
left-to-right scanner with the same matching semantics as the concrete
pattern (leftmost match, non-overlapping continuation after a match,
greedy or lazy quantifiers resolved as the pattern dictates).  The
scanners are fuelled by the length of the scanned string; every step
consumes at least one character, so the fuel is never exhausted.
-/

/-- Match a literal at the head of the string, returning the rest. -/
def dropLiteral (pat s : PyStr) : Option PyStr :=
  if pat.isPrefixOf s then some (s.drop pat.length) else none

/-- Skip the regex `\s*`. -/
def dropSpaces (s : PyStr) : PyStr := s.dropWhile isPySpace

/-- Longest `\w+` run at the head together with the rest. -/
def spanWord (s : PyStr) : PyStr × PyStr :=
  (s.takeWhile isWordChar, s.dropWhile isWordChar)

/-!
### `_infer_entity_type`
-/

/-- Attempt of the filter pattern
`entity\.type\s*===\s*['"\x60](\w+)['"\x60].*?VAR` (with `re.DOTALL`) at
the head of `s`: after the quoted word, the lazy gap only requires the
variable name to occur somewhere in the remainder. -/
def matchFilterAt (entityVar s : PyStr) : Option PyStr :=
  match dropLiteral (mkStr "entity.type") s with
  | none => none
  | some s1 =>
    match dropLiteral (mkStr "===") (dropSpaces s1) with
    | none => none
    | some s2 =>
      match dropSpaces s2 with
      | [] => none
      | q :: s3 =>
        if isQuoteChar q then
          match spanWord s3 with
          | ([], _) => none
          | (w0 :: ws, s4) =>
            match s4 with
            | [] => none
            | q2 :: s5 =>
              if isQuoteChar q2 && containsSub entityVar s5 then some (w0 :: ws)
              else none
        else none

/-- Generic `re.search`: try the matcher at every suffix, leftmost
first; fuel `s.length + 1` covers every position including the end. -/
def scanSearch (f : PyStr → Option α) : Nat → PyStr → Option α
  | 0, _ => none
  | fuel + 1, s =>
    match f s with
    | some r => some r
    | none =>
      match s with
      | [] => none
      | _ :: rest => scanSearch f fuel rest

/-- The `re.search(filter_pattern, code, re.DOTALL)` call of
`_infer_entity_type`. -/
def searchFilterPattern (code entityVar : PyStr) : Option PyStr :=
  scanSearch (matchFilterAt entityVar) (code.length + 1) code

/-- Attempt of the explicit type pattern
`VAR\.type\s*===\s*['"\x60](\w+)['"\x60]` at the head of `s`. -/
def matchTypeAt (entityVar s : PyStr) : Option PyStr :=
  match dropLiteral (entityVar ++ mkStr ".type") s with
  | none => none
  | some s1 =>
    match dropLiteral (mkStr "===") (dropSpaces s1) with
    | none => none
    | some s2 =>
      match dropSpaces s2 with
      | [] => none
      | q :: s3 =>
        if isQuoteChar q then
          match spanWord s3 with
          | ([], _) => none
          | (w0 :: ws, s4) =>
            match s4 with
            | [] => none
            | q2 :: _ => if isQuoteChar q2 then some (w0 :: ws) else none
        else none

/-- The `re.search(type_pattern, code)` call of `_infer_entity_type`. -/
def searchTypePattern (code entityVar : PyStr) : Option PyStr :=
  scanSearch (matchTypeAt entityVar) (code.length + 1) code

/-- Embedding of `RADFieldAnalyzer._infer_entity_type` (the leading
underscore is dropped from the Lean name): filter pattern first, then
explicit type check, then the variable-name substring heuristics in
order `wsbv`, `mktg`, `uce`, finally `unknown`. -/
def infer_entity_type (code entityVar : PyStr) : PyStr :=
  match searchFilterPattern code entityVar with
  | some t => t
  | none =>
    match searchTypePattern code entityVar with
    | some t => t
    | none =>
      if containsSub (mkStr "wsbv") (lowerStr entityVar) then mkStr "wsbvnext"
      else if containsSub (mkStr "mktg") (lowerStr entityVar) then mkStr "mktgasst"
      else if containsSub (mkStr "uce") (lowerStr entityVar) then mkStr "uce"
      else mkStr "unknown"

/-!
### `extract_entity_pick_fields`
-/

/-- A harvested field-access record (`dict` appended by the extraction
functions). -/
structure FieldAccess where
  field : PyStr
  normalized : PyStr
  entity_type : PyStr
  access_method : PyStr
  deriving DecidableEq, Repr

/-- Resolution of the lazy group in
`entityPick\s*\(\s*(\w+)\s*,\s*\[([\s\S]*?)\]\s*\)`: the group takes the
shortest run such that the remainder matches `\]\s*\)`; so scan for the
first `]` that is followed (after whitespace) by `)`, and return the
content before it together with the rest after the `)`. -/
def findBracketClose : PyStr → Option (PyStr × PyStr)
  | [] => none
  | c :: rest =>
    if c = ']' then
      match dropSpaces rest with
      | ')' :: r3 => some ([], r3)
      | _ => (findBracketClose rest).map (fun pr => (c :: pr.1, pr.2))
    else (findBracketClose rest).map (fun pr => (c :: pr.1, pr.2))

/-- Attempt of the `entityPick` pattern at the head of `s`, returning
the entity variable, the bracketed fields text and the rest after the
closing parenthesis. -/
def matchEntityPickAt (s : PyStr) : Option (PyStr × PyStr × PyStr) :=
  match dropLiteral (mkStr "entityPick") s with
  | none => none
  | some s1 =>
    match dropLiteral (mkStr "(") (dropSpaces s1) with
    | none => none
    | some s2 =>
      match spanWord (dropSpaces s2) with
      | ([], _) => none
      | (v0 :: vs, s3) =>
        match dropLiteral (mkStr ",") (dropSpaces s3) with
        | none => none
        | some s4 =>
          match dropLiteral (mkStr "[") (dropSpaces s4) with
          | none => none
          | some s5 =>
            match findBracketClose s5 with
            | none => none
            | some (content, rest) => some (v0 :: vs, content, rest)

/-- The `re.finditer(pattern, code)` loop of
`extract_entity_pick_fields`: leftmost matches, continuing after each
match. -/
def scanEntityPick : Nat → PyStr → List (PyStr × PyStr)
  | 0, _ => []
  | _ + 1, [] => []
  | fuel + 1, c :: rest =>
    match matchEntityPickAt (c :: rest) with
    | some (v, content, after) => (v, content) :: scanEntityPick fuel after
    | none => scanEntityPick fuel rest

/-- The inner `re.findall(r'[\x27"\x60]([^\x27"\x60]+)[\x27"\x60]', fields_str)`:
scan for a quote, take the non-empty run of non-quote characters, and
require a closing quote; continue after the closing quote. -/
def scanQuoted : Nat → PyStr → List PyStr
  | 0, _ => []
  | _ + 1, [] => []
  | fuel + 1, c :: rest =>
    if isQuoteChar c then
      match rest.takeWhile (fun x => !isQuoteChar x), rest.dropWhile (fun x => !isQuoteChar x) with
      | [], _ => scanQuoted fuel rest
      | _ :: _, [] => scanQuoted fuel rest
      | r0 :: rs, _ :: after2 => (r0 :: rs) :: scanQuoted fuel after2
    else scanQuoted fuel rest

/-- Embedding of `RADFieldAnalyzer.extract_entity_pick_fields` (return
value; the `all_fields` / `field_by_entity` bookkeeping side effects do
not affect it). -/
def extract_entity_pick_fields (code : PyStr) : List FieldAccess :=
  (scanEntityPick code.length code).flatMap fun m =>
    (scanQuoted m.2.length m.2).map fun field =>
      { field := field,
        normalized := normalize_field_path field,
        entity_type := infer_entity_type code m.1,
        access_method := mkStr "entityPick" }

/-!
### `extract_direct_property_access`
-/

/-- Attempt of `profile\.request\.query\.(\w+)` at the head of `s`. -/
def matchQueryAt (s : PyStr) : Option (PyStr × PyStr) :=
  match dropLiteral (mkStr "profile.request.query.") s with
  | none => none
  | some s1 =>
    match spanWord s1 with
    | ([], _) => none
    | (w0 :: ws, s2) => some (w0 :: ws, s2)

/-- The `re.finditer(query_pattern, code)` loop. -/
def scanQuery : Nat → PyStr → List PyStr
  | 0, _ => []
  | _ + 1, [] => []
  | fuel + 1, c :: rest =>
    match matchQueryAt (c :: rest) with
    | some (w, after) => w :: scanQuery fuel after
    | none => scanQuery fuel rest

/-- Characters of the regex class `[a-zA-Z0-9_.?]`. -/
def isPropClassChar (c : Char) : Bool :=
  isWordChar c || c = '.' || c = '?'

/-- The trailing alternation
`(?:\s*[=!<>]|\s*\?\?|\s*&&|\s*\|\||\s*\))`: skip whitespace and accept
one of the operator shapes, returning the number of characters
consumed. -/
def altMatch (s : PyStr) : Option Nat :=
  let sp := (s.takeWhile isPySpace).length
  match s.dropWhile isPySpace with
  | [] => none
  | c :: r2 =>
    if c = '=' || c = '!' || c = '<' || c = '>' then some (sp + 1)
    else if c = '?' then
      match r2 with
      | c2 :: _ => if c2 = '?' then some (sp + 2) else none
      | [] => none
    else if c = '&' then
      match r2 with
      | c2 :: _ => if c2 = '&' then some (sp + 2) else none
      | [] => none
    else if c = '|' then
      match r2 with
      | c2 :: _ => if c2 = '|' then some (sp + 2) else none
      | [] => none
    else if c = ')' then some (sp + 1)
    else none

/-- Greedy backtracking of the `([a-zA-Z0-9_.?]+)` group: among the
prefixes of `run` (the maximal class run), pick the longest whose
remainder (rest of the run, then `post`) matches the alternation.
Returns the chosen prefix (possibly empty here; the caller rejects the
empty one, as the regex group needs at least one character) and the text
after the alternation. -/
def longSplit : PyStr → PyStr → Option (PyStr × PyStr)
  | [], post =>
    match altMatch post with
    | some n => some ([], post.drop n)
    | none => none
  | c :: cs, post =>
    match longSplit cs post with
    | some (p, r) => some (c :: p, r)
    | none =>
      match altMatch (c :: cs ++ post) with
      | some n => some ([], (c :: cs ++ post).drop n)
      | none => none

/-- Attempt of
`(\w+)\.([a-zA-Z0-9_.?]+)(?:\s*[=!<>]|\s*\?\?|\s*&&|\s*\|\||\s*\))` at
the head of `s`, returning variable, raw property path and the rest
after the whole match. -/
def matchPropAt (s : PyStr) : Option (PyStr × PyStr × PyStr) :=
  match spanWord s with
  | ([], _) => none
  | (v0 :: vs, s1) =>
    match s1 with
    | [] => none
    | c :: s2 =>
      if c = '.' then
        match s2.takeWhile isPropClassChar, s2.dropWhile isPropClassChar with
        | [], _ => none
        | r0 :: rs, s3 =>
          match longSplit (r0 :: rs) s3 with
          | some (p0 :: ps, rest) => some (v0 :: vs, p0 :: ps, rest)
          | _ => none
      else none

/-- The `re.finditer(prop_pattern, code)` loop. -/
def scanProp : Nat → PyStr → List (PyStr × PyStr)
  | 0, _ => []
  | _ + 1, [] => []
  | fuel + 1, c :: rest =>
    match matchPropAt (c :: rest) with
    | some (v, p, after) => (v, p) :: scanProp fuel after
    | none => scanProp fuel rest

/-- Python `prop_path.replace('?.', '.')`: non-overlapping left-to-right
replacement of every occurrence. -/
def replaceOptionalChain : PyStr → PyStr
  | [] => []
  | '?' :: '.' :: rest => '.' :: replaceOptionalChain rest
  | c :: rest => c :: replaceOptionalChain rest

/-- Variable names excluded by `extract_direct_property_access`. -/
def excludedVars : List PyStr :=
  [mkStr "profile", mkStr "entity", mkStr "console",
   mkStr "Object", mkStr "Array", mkStr "Math"]

/-- Embedding of `RADFieldAnalyzer.extract_direct_property_access`
(return value; `field_by_entity` bookkeeping ignored).  All regex
matches are consumed in order; records are appended for the query
pattern first, then for non-excluded variables of the property
pattern. -/
def extract_direct_property_access (code : PyStr) : List FieldAccess :=
  let queryRecords := (scanQuery code.length code).map fun w =>
    { field := mkStr "request.query." ++ w,
      normalized := mkStr "request.query." ++ w,
      entity_type := mkStr "profile",
      access_method := mkStr "direct" : FieldAccess }
  let propRecords := (scanProp code.length code).filterMap fun m =>
    if m.1 ∈ excludedVars then none
    else
      let prop_path := replaceOptionalChain m.2
      some { field := prop_path,
             normalized := normalize_field_path prop_path,
             entity_type := infer_entity_type code m.1,
             access_method := mkStr "direct" : FieldAccess }
  queryRecords ++ propRecords

/-!
### `extract_destructuring_patterns`
-/

/-- Attempt of `const\s*\{([^}]+)\}\s*=\s*(\w+)` at the head of `s`,
returning the inner destructuring text, the source variable and the
rest. -/
def matchDestructAt (s : PyStr) : Option (PyStr × PyStr × PyStr) :=
  match dropLiteral (mkStr "const") s with
  | none => none
  | some s1 =>
    match dropSpaces s1 with
    | [] => none
    | c :: s2 =>
      if c = braceL then
        match s2.takeWhile (fun x => x ≠ braceR), s2.dropWhile (fun x => x ≠ braceR) with
        | [], _ => none
        | _ :: _, [] => none
        | i0 :: is, _ :: s3 =>
          match dropLiteral (mkStr "=") (dropSpaces s3) with
          | none => none
          | some s4 =>
            match spanWord (dropSpaces s4) with
            | ([], _) => none
            | (v0 :: vs, s5) => some (i0 :: is, v0 :: vs, s5)
      else none

/-- The `re.finditer(destruct_pattern, code)` loop. -/
def scanDestruct : Nat → PyStr → List (PyStr × PyStr)
  | 0, _ => []
  | _ + 1, [] => []
  | fuel + 1, c :: rest =>
    match matchDestructAt (c :: rest) with
    | some (inner, v, after) => (inner, v) :: scanDestruct fuel after
    | none => scanDestruct fuel rest

/-- Embedding of `RADFieldAnalyzer._parse_destructuring` (the leading
underscore is dropped from the Lean name): split on commas, strip, keep
the part before a colon, and keep only non-empty names not starting with
an opening brace. -/
def parse_destructuring (destructStr : PyStr) : List PyStr :=
  (splitOnSub (mkStr ",") destructStr).filterMap fun part =>
    let p := pyStrip part
    let fieldName :=
      if containsSub (mkStr ":") p then pyStrip ((splitOnSub (mkStr ":") p).headD [])
      else p
    if fieldName ≠ [] && !([braceL].isPrefixOf fieldName) then some fieldName
    else none

/-- Embedding of `RADFieldAnalyzer.extract_destructuring_patterns`
(return value; `field_by_entity` bookkeeping ignored). -/
def extract_destructuring_patterns (code : PyStr) : List FieldAccess :=
  (scanDestruct code.length code).flatMap fun m =>
    (parse_destructuring m.1).map fun fieldPath =>
      { field := fieldPath,
        normalized := normalize_field_path fieldPath,
        entity_type := infer_entity_type code m.2,
        access_method := mkStr "destructuring" }

/-!
## Claim C4: entityPick round trip
-/

/-- Sample rule-function text that is exactly the entityPick call of the
claim (quote class covers single quotes, double quotes and backticks
alike; double quotes are used here). -/
def sampleCall : PyStr :=
  mkStr "entityPick(entity, [\"accountId\",\"entitlementData\"])"

/-- Sample full rule function containing the same call. -/
def sampleRule : PyStr :=
  mkStr "profile => profile.entities\n  .filter(entity => entity.type === \"wsbvnext\")\n  .map(entity => (\n    entityPick(entity, [\n      \"accountId\",\n      \"entitlementData\"\n    ])\n  ))"

set_option maxRecDepth 100000 in
/-- C4: extraction on a rule-function text containing
`entityPick(entity, [accountId, entitlementData])` yields exactly the
raw field strings `accountId` and `entitlementData`, one record per
quoted field in the bracketed list and nothing else — both on the bare
call and on a full rule function containing it. -/
theorem entity_pick_roundtrip :
    (extract_entity_pick_fields sampleCall).map (fun r => r.field)
      = [mkStr "accountId", mkStr "entitlementData"] ∧
    (extract_entity_pick_fields sampleRule).map (fun r => r.field)
      = [mkStr "accountId", mkStr "entitlementData"] := by
  constructor
  · decide
  · decide

/-!
## Claim C7: extraction is total and never produces degenerate records
-/

/-- Fields captured by the quoted-string scanner are non-empty (the
regex group is `[^...]+`). -/
theorem scanQuoted_ne_nil (fuel : Nat) :
    ∀ (s : PyStr), ∀ x ∈ scanQuoted fuel s, x ≠ [] := by
  induction fuel with
  | zero => intro s x hx; simp [scanQuoted] at hx
  | succ n ih =>
    intro s x hx
    match s with
    | [] => simp [scanQuoted] at hx
    | c :: rest =>
      simp only [scanQuoted] at hx
      split at hx
      · split at hx
        · exact ih rest x hx
        · exact ih rest x hx
        · rcases List.mem_cons.mp hx with h | h
          · subst h; simp
          · exact ih _ x h
      · exact ih rest x hx

/-- The property path returned by the property-pattern matcher is
non-empty (the regex group is `[a-zA-Z0-9_.?]+`). -/
theorem matchPropAt_path_ne_nil {s v p r : PyStr}
    (h : matchPropAt s = some (v, p, r)) : p ≠ [] := by
  unfold matchPropAt at h
  repeat' split at h
  all_goals try simp_all
  all_goals
    obtain ⟨-, hp, -⟩ := h
    exact hp ▸ List.cons_ne_nil _ _

/-- Every match of the property-pattern scanner has a non-empty path. -/
theorem scanProp_snd_ne_nil (fuel : Nat) :
    ∀ (s : PyStr), ∀ m ∈ scanProp fuel s, m.2 ≠ ([] : PyStr) := by
  induction fuel with
  | zero => intro s m hm; simp [scanProp] at hm
  | succ n ih =>
    intro s m hm
    match s with
    | [] => simp [scanProp] at hm
    | c :: rest =>
      simp only [scanProp] at hm
      split at hm
      · rename_i v p after heq
        rcases List.mem_cons.mp hm with h | h
        · subst h; exact matchPropAt_path_ne_nil heq
        · exact ih _ m h
      · exact ih rest m hm

/-- Replacement of optional chaining never empties a non-empty path. -/
theorem replaceOptionalChain_ne_nil (s : PyStr) (hs : s ≠ []) :
    replaceOptionalChain s ≠ [] := by
  rw [replaceOptionalChain.eq_def]
  split <;> simp_all

/-- Fields returned by the destructuring parser are non-empty, thanks to
the `if field_name` guard in the source. -/
theorem parse_destructuring_ne_nil (d : PyStr) :
    ∀ x ∈ parse_destructuring d, x ≠ [] := by
  intro x hx
  obtain ⟨part, -, hf⟩ := List.mem_filterMap.mp hx
  simp only [parse_destructuring] at hf
  rw [Option.ite_none_right_eq_some, Option.some_inj] at hf
  obtain ⟨hg, hx2⟩ := hf
  subst hx2
  simp only [Bool.and_eq_true, decide_eq_true_eq] at hg
  exact hg.1

/-- C7: on every input string the three field-extraction functions are
total (they are plain Lean functions returning a list, the shallow image
of the Python code raising no exception) and each extracted record
carries a non-empty raw field; on concretely malformed or unbalanced
inputs they return zero matches rather than failing. -/
theorem extractors_total_and_nonempty :
    (∀ code : PyStr,
      (∀ r ∈ extract_entity_pick_fields code, r.field ≠ []) ∧
      (∀ r ∈ extract_direct_property_access code, r.field ≠ []) ∧
      (∀ r ∈ extract_destructuring_patterns code, r.field ≠ [])) ∧
    extract_entity_pick_fields (mkStr "entityPick(entity, [\"accountId\"") = [] ∧
    extract_direct_property_access (mkStr "...????") = [] ∧
    extract_destructuring_patterns (mkStr "const ") = [] := by
  refine ⟨fun code => ⟨?_, ?_, ?_⟩, by decide, by decide, by decide⟩
  · intro r hr
    obtain ⟨m, -, hr2⟩ := List.mem_flatMap.mp hr
    obtain ⟨field, hfield, hrec⟩ := List.mem_map.mp hr2
    subst hrec
    exact scanQuoted_ne_nil _ _ field hfield
  · intro r hr
    unfold extract_direct_property_access at hr
    rcases List.mem_append.mp hr with h | h
    · obtain ⟨w, -, hrec⟩ := List.mem_map.mp h
      subst hrec
      intro hcontra
      rw [List.append_eq_nil] at hcontra
      exact absurd hcontra.1 (by decide)
    · obtain ⟨m, hm, hf⟩ := List.mem_filterMap.mp h
      rw [Option.ite_none_left_eq_some, Option.some_inj] at hf
      obtain ⟨-, hrec⟩ := hf
      subst hrec
      exact replaceOptionalChain_ne_nil _ (scanProp_snd_ne_nil _ _ m hm)
  · intro r hr
    obtain ⟨m, -, hr2⟩ := List.mem_flatMap.mp hr
    obtain ⟨fieldPath, hfp, hrec⟩ := List.mem_map.mp hr2
    subst hrec
    exact parse_destructuring_ne_nil _ fieldPath hfp

/-- Closed witness for C7: the universal part applied to a concrete code
string and the concrete first record of its extraction. -/
theorem extractors_total_and_nonempty_witness :
    ({ field := mkStr "accountId", normalized := mkStr "accountId",
       entity_type := mkStr "unknown", access_method := mkStr "entityPick" : FieldAccess }
        ∈ extract_entity_pick_fields sampleCall) ∧
    ({ field := mkStr "accountId", normalized := mkStr "accountId",
       entity_type := mkStr "unknown", access_method := mkStr "entityPick" : FieldAccess }.field ≠ []) :=
  ⟨by decide,
   (extractors_total_and_nonempty.1 sampleCall).1 _ (by decide)⟩

/-!
## Claim C8: entity-type inference heuristics
-/

/-- C8: when neither the filter pattern nor the explicit
`var.type === ...` pattern matches in the surrounding code, the
variable-name substring heuristics decide the entity type, checked in
the order `wsbv` → `wsbvnext`, `mktg` → `mktgasst`, `uce` → `uce`, and
otherwise `unknown`. -/
theorem infer_entity_type_heuristics (code entityVar : PyStr)
    (h1 : searchFilterPattern code entityVar = none)
    (h2 : searchTypePattern code entityVar = none) :
    (containsSub (mkStr "wsbv") (lowerStr entityVar) = true →
        infer_entity_type code entityVar = mkStr "wsbvnext") ∧
    (containsSub (mkStr "wsbv") (lowerStr entityVar) = false →
      containsSub (mkStr "mktg") (lowerStr entityVar) = true →
        infer_entity_type code entityVar = mkStr "mktgasst") ∧
    (containsSub (mkStr "wsbv") (lowerStr entityVar) = false →
      containsSub (mkStr "mktg") (lowerStr entityVar) = false →
      containsSub (mkStr "uce") (lowerStr entityVar) = true →
        infer_entity_type code entityVar = mkStr "uce") ∧
    (containsSub (mkStr "wsbv") (lowerStr entityVar) = false →
      containsSub (mkStr "mktg") (lowerStr entityVar) = false →
      containsSub (mkStr "uce") (lowerStr entityVar) = false →
        infer_entity_type code entityVar = mkStr "unknown") := by
  refine ⟨?_, ?_, ?_, ?_⟩ <;> intros <;> simp [infer_entity_type, h1, h2, *]

/-- Closed witness for C8 on a code string without type checks and a
variable whose lowercased name contains `wsbv`. -/
theorem infer_entity_type_heuristics_witness :
    searchFilterPattern (mkStr "x") (mkStr "wsbVar") = none ∧
    searchTypePattern (mkStr "x") (mkStr "wsbVar") = none ∧
    infer_entity_type (mkStr "x") (mkStr "wsbVar") = mkStr "wsbvnext" :=
  ⟨by decide, by decide,
   (infer_entity_type_heuristics (mkStr "x") (mkStr "wsbVar")
      (by decide) (by decide)).1 (by decide)⟩

/-!
## `generate_data_dictionary.py`: `DataDictionaryGenerator._categorize_field`
and `create_data_summary.py` categorization (claim C5)
-/

/-- Containment of any keyword of a list in a string (Python
`any(term in s for term in terms)`). -/
def anyContainedIn (terms : List PyStr) (s : PyStr) : Bool :=
  terms.any (fun t => containsSub t s)

/-- Embedding of `DataDictionaryGenerator._categorize_field` (the
leading underscore is dropped from the Lean name): keyword-containment
branches over the lowercased field, tested in source order. -/
def categorize_field (field : PyStr) : PyStr :=
  let fl := lowerStr field
  if anyContainedIn [mkStr "account", mkStr "shopper", mkStr "id"] fl then
    mkStr "Identity & Authentication"
  else if anyContainedIn [mkStr "billing", mkStr "payment", mkStr "commitment", mkStr "autorenew"] fl then
    mkStr "Billing & Payments"
  else if anyContainedIn [mkStr "entitlement", mkStr "current", mkStr "transitionable"] fl then
    mkStr "Entitlements & Permissions"
  else if anyContainedIn [mkStr "feature", mkStr "widget", mkStr "published"] fl then
    mkStr "Features & Configuration"
  else if anyContainedIn [mkStr "facebook", mkStr "instagram", mkStr "social", mkStr "gem"] fl then
    mkStr "Social Media & Marketing"
  else if anyContainedIn [mkStr "product", mkStr "commerce", mkStr "ols", mkStr "marketplace"] fl then
    mkStr "Commerce & Products"
  else if anyContainedIn [mkStr "appointment", mkStr "ola", mkStr "service", mkStr "calendar"] fl then
    mkStr "Appointments & Services"
  else if anyContainedIn [mkStr "type", mkStr "status"] fl then
    mkStr "Status & Types"
  else
    mkStr "Other"

/-- Keyword table of `_categorize_field` in its textual order, for the
specification-side first-match reading of the claim. -/
def categoryTable : List (List PyStr × PyStr) :=
  [ ([mkStr "account", mkStr "shopper", mkStr "id"], mkStr "Identity & Authentication"),
    ([mkStr "billing", mkStr "payment", mkStr "commitment", mkStr "autorenew"], mkStr "Billing & Payments"),
    ([mkStr "entitlement", mkStr "current", mkStr "transitionable"], mkStr "Entitlements & Permissions"),
    ([mkStr "feature", mkStr "widget", mkStr "published"], mkStr "Features & Configuration"),
    ([mkStr "facebook", mkStr "instagram", mkStr "social", mkStr "gem"], mkStr "Social Media & Marketing"),
    ([mkStr "product", mkStr "commerce", mkStr "ols", mkStr "marketplace"], mkStr "Commerce & Products"),
    ([mkStr "appointment", mkStr "ola", mkStr "service", mkStr "calendar"], mkStr "Appointments & Services"),
    ([mkStr "type", mkStr "status"], mkStr "Status & Types") ]

/-- First-match-wins lookup over a keyword table, the deterministic
bucketing described by the spec. -/
def firstMatchCategory : List (List PyStr × PyStr) → PyStr → PyStr
  | [], _ => mkStr "Other"
  | (kws, cat) :: rest, fl =>
    if anyContainedIn kws fl then cat else firstMatchCategory rest fl

/-- Specification-side categorizer: category of the first matching
keyword row of the fixed table, tested against the lowercased field. -/
def categorizeSpec (field : PyStr) : PyStr :=
  firstMatchCategory categoryTable (lowerStr field)

/-- Embedding of the inline categorization chain of
`create_visual_summary` (lines 31 to 50 of `create_data_summary.py`);
the first branch also accepts the exact fields `id` and `type`, the
last keyword branch is followed by a `links.` prefix test, and only the
first branch lowercases the field. -/
def visualCategoryOf (field : PyStr) : PyStr :=
  if containsSub (mkStr "account") (lowerStr field) || field = mkStr "id" || field = mkStr "type" then
    mkStr "Core Identity"
  else if anyContainedIn [mkStr "billing", mkStr "payment", mkStr "commitment", mkStr "autoRenew"] field then
    mkStr "Billing & Payments"
  else if anyContainedIn [mkStr "entitlement", mkStr "current."] field then
    mkStr "Feature Entitlements"
  else if anyContainedIn [mkStr "website", mkStr "published", mkStr "widget", mkStr "domain"] field then
    mkStr "Website Settings"
  else if anyContainedIn [mkStr "facebook", mkStr "instagram", mkStr "social", mkStr "gem", mkStr "email"] field then
    mkStr "Marketing & Social"
  else if anyContainedIn [mkStr "product", mkStr "commerce", mkStr "ols", mkStr "marketplace"] field then
    mkStr "E-commerce"
  else if anyContainedIn [mkStr "appointment", mkStr "ola", mkStr "service", mkStr "calendar"] field then
    mkStr "Appointments"
  else if anyContainedIn [mkStr "customer", mkStr "contact", mkStr "intention"] field then
    mkStr "Customer Data"
  else if (mkStr "links.").isPrefixOf field then
    mkStr "Navigation Links"
  else
    mkStr "Other Data"

/-!
## Claim C5: deterministic first-match category bucketing
-/

/-- C5: category bucketing is deterministic first-match-wins over the
fixed keyword table in its textual order — `_categorize_field` agrees
with the first-match table lookup on every field string — and in
particular `billing.commitment` is assigned `Billing & Payments`, both
by `_categorize_field` and by the `create_visual_summary`
categorization chain. -/
theorem categorize_first_match_wins :
    (∀ field : PyStr, categorize_field field = categorizeSpec field) ∧
    categorize_field (mkStr "billing.commitment") = mkStr "Billing & Payments" ∧
    visualCategoryOf (mkStr "billing.commitment") = mkStr "Billing & Payments" := by
  refine ⟨fun field => ?_, by decide, by decide⟩
  simp only [categorize_field, categorizeSpec, categoryTable, firstMatchCategory]

/-!
## `analyze_rad_fields.py`: `_identify_common_patterns` (claim C9)
-/

/-- The fixed-key `patterns` dict of `_identify_common_patterns`,
modelled as a structure with one list per key (insertion order of the
dict literal is `authentication`, `billing`, `features`,
`entitlements`, `social_media`, `commerce`, `appointments`,
`content`). -/
structure CommonPatterns where
  authentication : List (PyStr × Nat)
  billing : List (PyStr × Nat)
  features : List (PyStr × Nat)
  entitlements : List (PyStr × Nat)
  social_media : List (PyStr × Nat)
  commerce : List (PyStr × Nat)
  appointments : List (PyStr × Nat)
  content : List (PyStr × Nat)
  deriving DecidableEq, Repr

/-- The empty pattern buckets. -/
def emptyPatterns : CommonPatterns :=
  { authentication := [], billing := [], features := [], entitlements := [],
    social_media := [], commerce := [], appointments := [], content := [] }

/-- One iteration of the keyword chain of `_identify_common_patterns`:
the field joins the bucket of the first matching branch; fields matching
no branch are dropped; no branch ever targets `content`. -/
def patternStep (p : CommonPatterns) (fc : PyStr × Nat) : CommonPatterns :=
  let field := fc.1
  if containsSub (mkStr "billing") field || containsSub (mkStr "payment") field then
    { p with billing := p.billing ++ [fc] }
  else if containsSub (mkStr "entitlement") field || containsSub (mkStr "current") field then
    { p with entitlements := p.entitlements ++ [fc] }
  else if containsSub (mkStr "feature") field || containsSub (mkStr "widget") field then
    { p with features := p.features ++ [fc] }
  else if containsSub (mkStr "facebook") field || containsSub (mkStr "instagram") field
      || containsSub (mkStr "social") field then
    { p with social_media := p.social_media ++ [fc] }
  else if containsSub (mkStr "product") field || containsSub (mkStr "commerce") field
      || containsSub (mkStr "ols") field then
    { p with commerce := p.commerce ++ [fc] }
  else if containsSub (mkStr "appointment") field || containsSub (mkStr "ola") field
      || containsSub (mkStr "service") field then
    { p with appointments := p.appointments ++ [fc] }
  else if containsSub (mkStr "account") field || containsSub (mkStr "shopper") field then
    { p with authentication := p.authentication ++ [fc] }
  else p

/-- Final per-bucket treatment: sort by usage count descending and keep
the top five. -/
def topFiveByCount (l : List (PyStr × Nat)) : List (PyStr × Nat) :=
  (sortDescBy (fun kv => kv.2) l).take 5

/-- Embedding of `RADFieldAnalyzer._identify_common_patterns` (the
leading underscore is dropped from the Lean name); the field counter is
an insertion-ordered association list as `Counter` iteration is
insertion-ordered. -/
def identify_common_patterns (fieldCounter : List (PyStr × Nat)) : CommonPatterns :=
  let p := fieldCounter.foldl patternStep emptyPatterns
  { authentication := topFiveByCount p.authentication,
    billing := topFiveByCount p.billing,
    features := topFiveByCount p.features,
    entitlements := topFiveByCount p.entitlements,
    social_media := topFiveByCount p.social_media,
    commerce := topFiveByCount p.commerce,
    appointments := topFiveByCount p.appointments,
    content := topFiveByCount p.content }

/-- Items of the pattern dict in its insertion order, as iterated by the
markdown branch of `export_report` when it renders the Common Data
Access Patterns section (each key is title-cased there; empty buckets
are skipped by its `if fields:` guard). -/
def patternsItems (p : CommonPatterns) : List (PyStr × List (PyStr × Nat)) :=
  [ (mkStr "authentication", p.authentication),
    (mkStr "billing", p.billing),
    (mkStr "features", p.features),
    (mkStr "entitlements", p.entitlements),
    (mkStr "social_media", p.social_media),
    (mkStr "commerce", p.commerce),
    (mkStr "appointments", p.appointments),
    (mkStr "content", p.content) ]

/-- The fold underlying `identify_common_patterns` never writes the
`content` bucket. -/
theorem patternStep_fold_content (fieldCounter : List (PyStr × Nat)) :
    ∀ acc : CommonPatterns,
      (fieldCounter.foldl patternStep acc).content = acc.content := by
  induction fieldCounter with
  | nil => intro acc; rfl
  | cons x xs ih =>
    intro acc
    rw [List.foldl_cons, ih]
    simp only [patternStep]
    split_ifs <;> rfl

/-- C9: for every field counter, `_identify_common_patterns` maps the
`content` key to the empty list — the bucket is declared but no branch
assigns to it — and consequently the rendered Common Data Access
Patterns section (which skips empty buckets) never lists the `content`
category. -/
theorem common_patterns_content_always_empty (fieldCounter : List (PyStr × Nat)) :
    (identify_common_patterns fieldCounter).content = [] ∧
    mkStr "content" ∉
      ((patternsItems (identify_common_patterns fieldCounter)).filter
        (fun kv => !kv.2.isEmpty)).map Prod.fst := by
  have hc : (identify_common_patterns fieldCounter).content = [] := by
    simp only [identify_common_patterns]
    rw [patternStep_fold_content]
    rfl
  refine ⟨hc, ?_⟩
  intro hmem
  obtain ⟨kv, hkv, hfst⟩ := List.mem_map.mp hmem
  obtain ⟨hkv2, hfilter⟩ := List.mem_filter.mp hkv
  simp only [patternsItems, List.mem_cons, List.not_mem_nil, or_false] at hkv2
  rcases hkv2 with h | h | h | h | h | h | h | h <;>
    first
      | (subst h; dsimp only at hfst; exact absurd hfst (by decide))
      | (subst h; rw [hc] at hfilter; simp at hfilter)

/-!
## `analyze_rad_fields.py`: `generate_comprehensive_report` (claim C1)

The analyzer accumulates per-synthesizer analyses in `self.results` and
global sets in `self.all_fields` / `self.entity_types` /
`self.field_variations`; the report generator is a pure function of this
state.  Dicts and sets are modelled as insertion-ordered association
lists.
-/

/-- One entry of `self.results` (the dict built by
`analyze_synthesizer`), restricted to the fields read by the reporting
code. -/
structure SynthAnalysis where
  name : PyStr
  entity_types : List PyStr
  all_fields : List PyStr
  field_accesses : List FieldAccess
  uses_join : Bool
  join_conditions : List (PyStr × PyStr)
  joined_entities : List PyStr
  return_type : PyStr
  code_length : Nat
  complexity_level : PyStr
  deriving DecidableEq, Repr

/-- The analyzer state read by `generate_comprehensive_report`. -/
structure AnalyzerState where
  results : List SynthAnalysis
  all_fields : List PyStr
  entity_types : List PyStr
  field_variations : List (PyStr × List PyStr)
  deriving DecidableEq, Repr

/-- The freshly constructed `RADFieldAnalyzer()` state: a run over zero
sections leaves it unchanged. -/
def emptyAnalyzerState : AnalyzerState :=
  { results := [], all_fields := [], entity_types := [], field_variations := [] }

/-- The `summary` part of the report. -/
structure ReportSummary where
  total_synthesizers : Nat
  total_unique_fields : Nat
  total_entity_types : Nat
  entity_types : List PyStr
  complexity_distribution : List (PyStr × Nat)
  return_patterns : List (PyStr × Nat)
  deriving DecidableEq, Repr

/-- The `field_analysis` part of the report. -/
structure ReportFieldAnalysis where
  most_used_fields : List (PyStr × Nat)
  fields_by_entity : List (PyStr × List (PyStr × Nat))
  field_variations : List (PyStr × List PyStr)
  access_methods : List (PyStr × Nat)
  common_patterns : CommonPatterns
  deriving DecidableEq, Repr

/-- One entry of `entity_relationships`. -/
structure EntityRelationship where
  synthesizer : PyStr
  left : PyStr
  right : PyStr
  entities : List PyStr
  deriving DecidableEq, Repr

/-- The report dict returned by `generate_comprehensive_report`. -/
structure Report where
  summary : ReportSummary
  field_analysis : ReportFieldAnalysis
  entity_relationships : List EntityRelationship
  synthesizer_details : List SynthAnalysis
  deriving DecidableEq, Repr

/-- Nested counter update `entity_field_map[entity][field] += 1`
(outer `defaultdict(Counter)`). -/
def nestedIncr : List (PyStr × List (PyStr × Nat)) → PyStr → PyStr →
    List (PyStr × List (PyStr × Nat))
  | [], e, f => [(e, [(f, 1)])]
  | (e', c) :: rest, e, f =>
    if e' = e then (e', cntIncr c f) :: rest
    else (e', c) :: nestedIncr rest e f

/-- Embedding of `RADFieldAnalyzer._analyze_entity_relationships`. -/
def analyze_entity_relationships (results : List SynthAnalysis) :
    List EntityRelationship :=
  results.foldl
    (fun acc r =>
      if r.uses_join then
        acc ++ r.join_conditions.map (fun c =>
          { synthesizer := r.name, left := c.1, right := c.2,
            entities := r.joined_entities })
      else acc) []

/-- Embedding of `RADFieldAnalyzer.generate_comprehensive_report` as a
pure function of the analyzer state. -/
def generate_comprehensive_report (st : AnalyzerState) : Report :=
  let counters := st.results.foldl
    (fun acc r => r.field_accesses.foldl
      (fun (a : (List (PyStr × Nat)) × (List (PyStr × List (PyStr × Nat))) × (List (PyStr × Nat))) fa =>
        (cntIncr a.1 fa.normalized,
         nestedIncr a.2.1 fa.entity_type fa.normalized,
         cntIncr a.2.2 fa.access_method)) acc)
    ([], [], [])
  let field_counter := counters.1
  let entity_field_map := counters.2.1
  let access_method_stats := counters.2.2
  { summary :=
      { total_synthesizers := st.results.length,
        total_unique_fields := st.all_fields.length,
        total_entity_types := st.entity_types.length,
        entity_types := sortStrs st.entity_types,
        complexity_distribution :=
          st.results.foldl (fun a r => cntIncr a r.complexity_level) [],
        return_patterns :=
          st.results.foldl (fun a r => cntIncr a r.return_type) [] },
    field_analysis :=
      { most_used_fields := mostCommon 20 field_counter,
        fields_by_entity := entity_field_map.map (fun kv => (kv.1, mostCommon 10 kv.2)),
        field_variations := st.field_variations,
        access_methods := access_method_stats,
        common_patterns := identify_common_patterns field_counter },
    entity_relationships := analyze_entity_relationships st.results,
    synthesizer_details := st.results }

/-!
## `analyze_unique_data_fields.py`: `generate_unique_data_report` (claim C1)
-/

/-- One value of the `self.all_fields` defaultdict of
`UniqueDataAnalyzer`; Python sets are modelled as insertion-ordered
lists. -/
structure FieldInfo where
  raw_variations : List PyStr
  synthesizers : List PyStr
  entity_sources : List PyStr
  access_patterns : List PyStr
  category : PyStr
  subcategory : PyStr
  data_type : PyStr
  description : PyStr
  deriving DecidableEq, Repr

/-- Append into a grouped association list
(`defaultdict(list)` with `categories[key].append(v)`). -/
def groupAppend (m : List (PyStr × List α)) (k : PyStr) (v : α) :
    List (PyStr × List α) :=
  match m with
  | [] => [(k, [v])]
  | (k', vs) :: rest =>
    if k' = k then (k', vs ++ [v]) :: rest
    else (k', vs) :: groupAppend rest k v

/-- Markdown block for one field entry of a category section of the
unique-data report. -/
def uniqueFieldBlock (field : PyStr) (info : FieldInfo) : PyStr :=
  let synthCount := info.synthesizers.length
  let varCount := info.raw_variations.length
  mkStr "### `" ++ field ++ mkStr "`\n"
    ++ mkStr "- **Description:** " ++ info.description ++ mkStr "\n"
    ++ mkStr "- **Data Type:** " ++ info.data_type ++ mkStr "\n"
    ++ mkStr "- **Used by:** " ++ natToStr synthCount ++ mkStr " synthesizers\n"
    ++ (if varCount > 1 then
          mkStr "- **Access Variations:** " ++ natToStr varCount ++ mkStr " different ways\n"
            ++ (if varCount ≤ 5 then
                  (sortStrs info.raw_variations).foldl
                    (fun acc v => acc ++ mkStr "  - `" ++ v ++ mkStr "`\n") []
                else [])
        else [])
    ++ (if synthCount ≤ 5 then
          mkStr "- **Used in:**\n"
            ++ (sortStrs info.synthesizers).foldl
                (fun acc s => acc ++ mkStr "  - " ++ s ++ mkStr "\n") []
        else [])
    ++ mkStr "\n"

/-- Embedding of `UniqueDataAnalyzer.generate_unique_data_report` as a
pure function of the accumulated `all_fields` association list (the
state that `analyze_report` builds from the parsed JSON report; a report
with zero sections leaves it empty). -/
def generate_unique_data_report (allFields : List (PyStr × FieldInfo)) : PyStr :=
  let totalUnique := allFields.length
  let synthUnion := allFields.foldl
    (fun acc kv => kv.2.synthesizers.foldl setAdd acc) []
  let sortedFields := sortDescBy (fun kv => kv.2.synthesizers.length) allFields
  let header :=
    mkStr "# Complete Unique Data Fields Used by RAD Synthesizers\n\n"
      ++ mkStr "## Summary\n\n"
      ++ mkStr "- **Total Unique Data Fields:** " ++ natToStr totalUnique ++ mkStr "\n"
      ++ mkStr "- **Total Synthesizers:** " ++ natToStr synthUnion.length ++ mkStr "\n\n"
  let top20 :=
    mkStr "## Top 20 Most Commonly Used Data\n\n"
      ++ mkStr "| Data Field | Used By | Category | Type | Description |\n"
      ++ mkStr "|------------|---------|----------|------|-------------|\n"
      ++ (sortedFields.take 20).foldl
          (fun acc kv =>
            acc ++ mkStr "| `" ++ kv.1 ++ mkStr "` | "
              ++ natToStr kv.2.synthesizers.length ++ mkStr " RADs | "
              ++ kv.2.category ++ mkStr " | " ++ kv.2.data_type ++ mkStr " | "
              ++ kv.2.description ++ mkStr " |\n") []
      ++ mkStr "\n"
  let categories := allFields.foldl
    (fun acc kv => groupAppend acc kv.2.category kv) []
  let categoryUsage := fun (fields : List (PyStr × FieldInfo)) =>
    fields.foldl (fun acc kv => acc + kv.2.synthesizers.length) 0
  let sortedCategories := sortDescBy (fun kv => categoryUsage kv.2) categories
  let body := sortedCategories.foldl
    (fun acc kv =>
      let sortedCatFields := sortDescBy (fun fv => fv.2.synthesizers.length) kv.2
      acc ++ mkStr "## " ++ kv.1 ++ mkStr "\n\n"
        ++ mkStr "**" ++ natToStr kv.2.length
        ++ mkStr " unique data fields** used by synthesizers:\n\n"
        ++ sortedCatFields.foldl (fun a fv => a ++ uniqueFieldBlock fv.1 fv.2) []) []
  header ++ top20 ++ body

/-!
## `create_data_summary.py`: `create_visual_summary` (claims C1 and C5)

The function is pure after its `json.load`; it takes the parsed report.
Python float arithmetic in the rendered text (percentages, averages,
bar lengths) is modelled by exact rational arithmetic with round half to
even, the rounding used by `float` formatting; Python set iteration
order is modelled as insertion order.  The `ValueError` raised by
`max(field_usage.values())` on an empty counter is modelled as
`Except.error`.
-/

/-- Round `num / den` to the nearest integer, ties to even. -/
def roundHalfEven (num den : Nat) : Nat :=
  if den = 0 then 0
  else
    let q := num / den
    let r := num % den
    if 2 * r < den then q
    else if 2 * r > den then q + 1
    else if q % 2 = 0 then q else q + 1

/-- Python `f"{x:.1f}"` of the exact rational `num / den`. -/
def fmtFixed1 (num den : Nat) : PyStr :=
  let v := roundHalfEven (10 * num) den
  natToStr (v / 10) ++ mkStr "." ++ natToStr (v % 10)

/-- Dict lookup with default (`dict.get(k, d)`). -/
def lookupD (m : List (PyStr × PyStr)) (k d : PyStr) : PyStr :=
  match m with
  | [] => d
  | (k', v) :: rest => if k' = k then v else lookupD rest k d

/-- Lookup of a set-valued dict entry, defaulting to the empty set. -/
def lookupSet (m : List (PyStr × List PyStr)) (k : PyStr) : List PyStr :=
  match m with
  | [] => []
  | (k', v) :: rest => if k' = k then v else lookupSet rest k

/-- Set-valued dict update `m[k].add(v)` over a `defaultdict(set)`. -/
def mapSetAdd : List (PyStr × List PyStr) → PyStr → PyStr →
    List (PyStr × List PyStr)
  | [], k, v => [(k, [v])]
  | (k', vs) :: rest, k, v =>
    if k' = k then (k', setAdd vs v) :: rest
    else (k', vs) :: mapSetAdd rest k v

/-- The `category_icons` dict of `create_visual_summary`. -/
def categoryIcons : List (PyStr × PyStr) :=
  [ (mkStr "Core Identity", mkStr "🔑"),
    (mkStr "Billing & Payments", mkStr "💳"),
    (mkStr "Feature Entitlements", mkStr "🎫"),
    (mkStr "Website Settings", mkStr "🌐"),
    (mkStr "Marketing & Social", mkStr "📱"),
    (mkStr "E-commerce", mkStr "🛒"),
    (mkStr "Appointments", mkStr "📅"),
    (mkStr "Customer Data", mkStr "👤"),
    (mkStr "Navigation Links", mkStr "🔗"),
    (mkStr "Other Data", mkStr "📦") ]

/-- The fixed `patterns` dict of the Common Data Access Patterns section
(Python set literals; rendering sorts them, so only membership
matters). -/
def visualPatterns : List (PyStr × List PyStr) :=
  [ (mkStr "Basic Website Info",
      [mkStr "accountId", mkStr "features.published", mkStr "features.websiteType"]),
    (mkStr "E-commerce Setup",
      [mkStr "accountId", mkStr "entitlementData", mkStr "ols.products.count",
       mkStr "links.olsAddProducts"]),
    (mkStr "Social Media",
      [mkStr "accountId", mkStr "features.facebook.pageId", mkStr "gem.lastFbPostDate",
       mkStr "gem.lastIgPostDate"]),
    (mkStr "Appointments",
      [mkStr "accountId", mkStr "ola.service.total", mkStr "ola.account.status",
       mkStr "entitlementData"]),
    (mkStr "Billing Check",
      [mkStr "accountId", mkStr "vnextAccount.billing.commitment",
       mkStr "vnextAccount.account.paymentStatus"]),
    (mkStr "Marketing Email",
      [mkStr "accountId", mkStr "gem.subscriberCount", mkStr "gem.hasSent",
       mkStr "links.composeCampaign"]) ]

/-- Mermaid node colour by usage count (the unused `size` local of the
source has no observable effect and is omitted). -/
def mermaidColor (count : Nat) : PyStr :=
  if count > 50 then mkStr "ff6b6b"
  else if count > 20 then mkStr "4ecdc4"
  else mkStr "95e1d3"

/-- Rendering of `create_visual_summary` after the `max()` call
succeeded. -/
def renderVisualSummary (report : Report)
    (fieldUsage : List (PyStr × Nat))
    (fieldCategories : List (PyStr × List PyStr))
    (fieldEntityMap : List (PyStr × List PyStr))
    (synthCount maxCount : Nat) : PyStr :=
  let barChart := (mostCommon 20 fieldUsage).foldl
    (fun acc kv =>
      let bar := List.replicate ((kv.2 * 40) / maxCount) '█'
      acc ++ padRightStr 35 kv.1 ++ mkStr " " ++ bar ++ mkStr " "
        ++ padLeftStr 3 (natToStr kv.2) ++ mkStr " ("
        ++ padLeftStr 3 (natToStr (roundHalfEven (100 * kv.2) synthCount))
        ++ mkStr "%)\n") []
  let head :=
    mkStr "# RAD Data Usage - Visual Summary\n\n"
      ++ mkStr "Analyzing **" ++ natToStr synthCount
      ++ mkStr " synthesizers** using **" ++ natToStr fieldUsage.length
      ++ mkStr " unique data fields**\n\n"
      ++ mkStr "## 📊 Most Commonly Used Data\n\n```\n"
      ++ barChart ++ mkStr "```\n\n"
  let usageOf := fun (f : PyStr) =>
    match fieldUsage.find? (fun kv => kv.1 = f) with
    | some kv => kv.2
    | none => 0
  let catUsage := fun (fields : List PyStr) =>
    fields.foldl (fun acc f => acc + usageOf f) 0
  let sortedCats := sortDescBy (fun kv => catUsage kv.2) fieldCategories
  let catSection := sortedCats.foldl
    (fun acc kv =>
      let fieldCount := kv.2.length
      let totalUsage := catUsage kv.2
      let icon := lookupD categoryIcons kv.1 (mkStr "📄")
      let catFields := sortDescBy (fun fv => fv.2)
        (kv.2.map (fun f => (f, usageOf f)))
      acc ++ mkStr "### " ++ icon ++ mkStr " " ++ kv.1 ++ mkStr "\n"
        ++ mkStr "- **" ++ natToStr fieldCount ++ mkStr " unique fields** | **"
        ++ natToStr totalUsage ++ mkStr " total uses** | **"
        ++ (if fieldCount > 0 then fmtFixed1 totalUsage fieldCount else fmtFixed1 0 1)
        ++ mkStr " avg uses/field**\n\n"
        ++ mkStr "| Field | Usage | Synthesizers |\n"
        ++ mkStr "|-------|-------|-------------|\n"
        ++ (catFields.take 5).foldl
            (fun a fv =>
              a ++ mkStr "| `" ++ fv.1 ++ mkStr "` | " ++ natToStr fv.2 ++ mkStr " | "
                ++ joinSep (mkStr ", ") (sortStrs (lookupSet fieldEntityMap fv.1))
                ++ mkStr " |\n") []
        ++ (if catFields.length > 5 then
              mkStr "| ... +" ++ natToStr (catFields.length - 5) ++ mkStr " more fields | | |\n"
            else [])
        ++ mkStr "\n")
    (mkStr "## 📂 Data Categories Overview\n\n")
  let synthFields := report.synthesizer_details.foldl
    (fun acc synth => synth.field_accesses.foldl
      (fun a fa => mapSetAdd a synth.name fa.normalized) acc) []
  let patternSection := visualPatterns.foldl
    (fun acc pk =>
      let matching := (synthFields.filter
        (fun sf => pk.2.all (fun f => f ∈ sf.2))).map (fun sf => sf.1)
      if matching ≠ [] then
        acc ++ mkStr "### " ++ pk.1 ++ mkStr "\n"
          ++ mkStr "**" ++ natToStr matching.length
          ++ mkStr " synthesizers** use this data combination:\n"
          ++ mkStr "- Fields: "
          ++ joinSep (mkStr ", ") ((sortStrs pk.2).map (fun f => mkStr "`" ++ f ++ mkStr "`"))
          ++ mkStr "\n"
          ++ mkStr "- Examples: " ++ joinSep (mkStr ", ") (matching.take 3)
          ++ (if matching.length > 3 then
                mkStr " (+" ++ natToStr (matching.length - 3) ++ mkStr " more)"
              else [])
          ++ mkStr "\n\n"
      else acc)
    (mkStr "## 🔄 Common Data Access Patterns\n\n")
  let sharedFields := sortDescBy (fun kv => kv.2)
    (fieldUsage.filter (fun kv => kv.2 ≥ 10))
  let sharedSection :=
    mkStr "## 🔗 Most Shared Data Fields\n\n"
      ++ mkStr "Fields used by 10+ synthesizers (strong indicators of core data):\n\n"
      ++ mkStr "```mermaid\ngraph LR\n"
      ++ ((sharedFields.take 10).enum).foldl
          (fun acc ikv =>
            acc ++ mkStr "    F" ++ natToStr ikv.1 ++ mkStr "[\"" ++ ikv.2.1
              ++ mkStr "<br/>" ++ natToStr ikv.2.2 ++ mkStr " uses\"]\n"
              ++ mkStr "    style F" ++ natToStr ikv.1 ++ mkStr " fill:#"
              ++ mermaidColor ikv.2.2 ++ mkStr "\n") []
      ++ mkStr "```\n\n"
  let criticalFields := (fieldUsage.filter (fun kv => 2 * kv.2 > synthCount)).map (fun kv => kv.1)
  let rareFields := (fieldUsage.filter (fun kv => kv.2 = 1)).map (fun kv => kv.1)
  let highVariation := (report.field_analysis.field_variations.filter
    (fun v => v.2.length > 2)).map (fun v => (v.1, v.2.length))
  let insights :=
    mkStr "## 💡 Key Insights\n\n"
      ++ (if criticalFields ≠ [] then
            mkStr "### Critical Data (used by >50% of synthesizers)\n"
              ++ (sortStrs criticalFields).foldl
                  (fun acc f =>
                    acc ++ mkStr "- `" ++ f ++ mkStr "` - "
                      ++ natToStr (roundHalfEven (100 * usageOf f) synthCount)
                      ++ mkStr "% of synthesizers\n") []
              ++ mkStr "\n"
          else [])
      ++ (if rareFields ≠ [] then
            mkStr "### Rarely Used Data (" ++ natToStr rareFields.length
              ++ mkStr " fields used by only 1 synthesizer)\n"
              ++ mkStr "Consider if these are still needed or can be consolidated.\n\n"
          else [])
      ++ (if highVariation ≠ [] then
            mkStr "### Fields with Multiple Access Patterns\n"
              ++ mkStr "These fields are accessed inconsistently and should be standardized:\n"
              ++ ((sortDescBy (fun v => v.2) highVariation).take 5).foldl
                  (fun acc v =>
                    acc ++ mkStr "- `" ++ v.1 ++ mkStr "` - " ++ natToStr v.2
                      ++ mkStr " different access patterns\n") []
          else [])
  head ++ catSection ++ patternSection ++ sharedSection ++ insights

/-- Embedding of `create_visual_summary` as a function of the parsed
report: the aggregation loop (lines 16 to 50 of the source), then the
`max(field_usage.values())` call, which raises `ValueError` on an empty
counter — modelled as `Except.error` — and otherwise the rendered
markdown text. -/
def create_visual_summary (report : Report) : Except PyStr PyStr :=
  let agg := report.synthesizer_details.foldl
    (fun (acc : (List (PyStr × Nat)) × (List (PyStr × List PyStr)) × (List (PyStr × List PyStr))) synth =>
      synth.field_accesses.foldl
        (fun a fa =>
          (cntIncr a.1 fa.normalized,
           mapSetAdd a.2.1 (visualCategoryOf fa.normalized) fa.normalized,
           mapSetAdd a.2.2 fa.normalized fa.entity_type)) acc)
    ([], [], [])
  let fieldUsage := agg.1
  let fieldCategories := agg.2.1
  let fieldEntityMap := agg.2.2
  let synthCount := report.synthesizer_details.length
  match fieldUsage with
  | [] => Except.error (mkStr "max() arg is an empty sequence")
  | u :: us =>
    let maxCount := us.foldl (fun m kv => Nat.max m kv.2) u.2
    Except.ok (renderVisualSummary report fieldUsage fieldCategories
      fieldEntityMap synthCount maxCount)

/-!
## Claim C1: behaviour of aggregate reports on zero input sections
-/

set_option maxRecDepth 100000 in
/-- Counterexample for C1 as stated: on the report produced from zero
sections, `create_visual_summary` does not return output — it raises
`ValueError` at `max(field_usage.values())` (modelled as
`Except.error`). -/
theorem create_visual_summary_raises_on_empty :
    create_visual_summary (generate_comprehensive_report emptyAnalyzerState)
      = Except.error (mkStr "max() arg is an empty sequence") := by
  rfl

set_option maxRecDepth 100000 in
/-- C1 (amended): given zero input sections,
`generate_comprehensive_report` renders the zero-count report and
`generate_unique_data_report` renders the empty summary text, both
without raising; `create_visual_summary`, however, raises `ValueError`
on the empty usage counter instead of returning output. -/
theorem aggregate_reports_on_empty_input :
    generate_comprehensive_report emptyAnalyzerState =
      { summary :=
          { total_synthesizers := 0, total_unique_fields := 0,
            total_entity_types := 0, entity_types := [],
            complexity_distribution := [], return_patterns := [] },
        field_analysis :=
          { most_used_fields := [], fields_by_entity := [],
            field_variations := [], access_methods := [],
            common_patterns := emptyPatterns },
        entity_relationships := [], synthesizer_details := [] } ∧
    generate_unique_data_report [] =
      mkStr "# Complete Unique Data Fields Used by RAD Synthesizers\n\n## Summary\n\n- **Total Unique Data Fields:** 0\n- **Total Synthesizers:** 0\n\n## Top 20 Most Commonly Used Data\n\n| Data Field | Used By | Category | Type | Description |\n|------------|---------|----------|------|-------------|\n\n" ∧
    (create_visual_summary (generate_comprehensive_report emptyAnalyzerState)).isOk = false := by
  refine ⟨by decide, by decide, by decide⟩

/-!
## `graphql-to-mermaid-python.py`: `extract_pure_graphql` (claim C10)
-/

/-- Embedding of `extract_pure_graphql`: `None` and the empty string are
falsy and return `None`; otherwise
`query_string.strip().strip('"\x27').strip()` (whitespace, then single
and double quotes — no backtick — then whitespace again). -/
def extract_pure_graphql (queryString : Option PyStr) : Option PyStr :=
  match queryString with
  | none => none
  | some s =>
    if s = [] then none
    else some (pyStrip (pyStripChars [quoteD, quoteS] (pyStrip s)))

/-- Specification-side cleanup named after the claim wording: the string
with leading/trailing whitespace and surrounding quote characters
stripped. -/
def graphqlCleanupSpec (s : PyStr) : PyStr :=
  pyStrip (pyStripChars [quoteD, quoteS] (pyStrip s))

/-- C10: `extract_pure_graphql` returns `None` exactly when its input is
`None` or the empty string; on every non-empty input string it returns
the whitespace- and quote-stripped string; it never raises (it is a
total function). -/
theorem extract_pure_graphql_spec :
    (∀ q : Option PyStr,
      extract_pure_graphql q = none ↔ (q = none ∨ q = some [])) ∧
    (∀ s : PyStr, s ≠ [] →
      extract_pure_graphql (some s) = some (graphqlCleanupSpec s)) := by
  constructor
  · intro q
    cases q with
    | none => simp [extract_pure_graphql]
    | some s =>
      by_cases hs : s = [] <;> simp [extract_pure_graphql, hs]
  · intro s hs
    simp [extract_pure_graphql, graphqlCleanupSpec, hs]

/-- Closed witness for C10 on a concrete quoted, padded input. -/
theorem extract_pure_graphql_spec_witness :
    (mkStr "  \"abc\"  " ≠ ([] : PyStr)) ∧
    extract_pure_graphql (some (mkStr "  \"abc\"  "))
      = some (graphqlCleanupSpec (mkStr "  \"abc\"  ")) :=
  ⟨by decide, extract_pure_graphql_spec.2 (mkStr "  \"abc\"  ") (by decide)⟩
